import Mathlib

/-!
Verification of the Scribus-Scripts repository (two Python scripts:
`snap_to_rounding.py` and `duplicate_transform_repeat_fixedCount.py`)
against its natural-language specification.

Numeric values (Python floats) are embedded as exact rationals `ℚ`;
fallible Python operations (exceptions such as `ZeroDivisionError`,
`ValueError`) are embedded as `Option`/explicit outcome constructors.
Dialog interaction is embedded by passing the strings the dialogs would
return; retry loops consume a list of successive dialog results.
-/

namespace ScribusScripts

/-- Model of Python `str.upper()` (ASCII case mapping, which is all the
scripts compare against). -/
def pyUpper (s : String) : String :=
  String.mk (s.toList.map Char.toUpper)

/-- Model of Python `str.strip()` with no argument: remove leading and
trailing whitespace. -/
def pyStrip (s : String) : String :=
  String.mk
    (((s.toList.dropWhile Char.isWhitespace).reverse.dropWhile
        Char.isWhitespace).reverse)

/-- Model of Python `c in s` for a single character `c`. -/
def pyContains (s : String) (c : Char) : Bool :=
  s.toList.contains c

/-- Numeric value of a digit string (most significant first). -/
def digitsToNat (cs : List Char) : ℕ :=
  cs.foldl (fun n c => 10 * n + (c.toNat - 48)) 0

/-- Parse an unsigned decimal literal `digits`, `digits.digits`,
`digits.` or `.digits` to its exact rational value.  This is the core of
the model of Python `float(...)` (exponent notation and the `inf`/`nan`
spellings, which no claim touches, are outside the modelled subset). -/
def parseUnsignedFloat (cs : List Char) : Option ℚ :=
  let ds := cs.takeWhile Char.isDigit
  let rest := cs.drop ds.length
  match rest with
  | [] => if ds.isEmpty then none else some (digitsToNat ds : ℚ)
  | '.' :: fs =>
      if fs.all Char.isDigit && !(ds.isEmpty && fs.isEmpty) then
        some ((digitsToNat ds : ℚ) + (digitsToNat fs : ℚ) / 10 ^ fs.length)
      else none
  | _ => none

/-- Model of Python `float(s)` on decimal literals: surrounding
whitespace is stripped, an optional sign precedes the literal.  `none`
models `ValueError`. -/
def parseFloat (s : String) : Option ℚ :=
  match (pyStrip s).toList with
  | '-' :: cs => (parseUnsignedFloat cs).map (fun q => -q)
  | '+' :: cs => parseUnsignedFloat cs
  | cs => parseUnsignedFloat cs

/-- Model of Python `int(s)`: surrounding whitespace stripped, optional
sign, then a nonempty run of digits.  `none` models `ValueError`. -/
def parseInt (s : String) : Option ℤ :=
  let core : List Char → Option ℤ := fun cs =>
    if cs.isEmpty || !cs.all Char.isDigit then none
    else some (digitsToNat cs : ℤ)
  match (pyStrip s).toList with
  | '-' :: cs => (core cs).map (fun n => -n)
  | '+' :: cs => core cs
  | cs => core cs

/-- Parse `digits / digits` (whitespace allowed around the slash) to the
numerator-denominator pair.  Core of the model of
`fractions.Fraction(s)` for strings containing a slash. -/
def parseFractionCore (cs : List Char) : Option (ℕ × ℕ) :=
  let ds := cs.takeWhile Char.isDigit
  let rest := (cs.drop ds.length).dropWhile Char.isWhitespace
  match rest with
  | '/' :: es =>
      let fs := es.dropWhile Char.isWhitespace
      if ds.isEmpty || fs.isEmpty || !fs.all Char.isDigit then none
      else some (digitsToNat ds, digitsToNat fs)
  | _ => none

/-- Model of Python `fractions.Fraction(s)` for strings containing `/`:
optional surrounding whitespace, optional sign, `digits/digits`.
Returns the signed numerator and the (unsigned) denominator; `none`
models `ValueError`.  A zero denominator is returned as such: the
caller decides between value and `ZeroDivisionError`. -/
def parseFraction (s : String) : Option (ℤ × ℕ) :=
  match (pyStrip s).toList with
  | '-' :: cs => (parseFractionCore cs).map (fun p => (-(p.1 : ℤ), p.2))
  | '+' :: cs => (parseFractionCore cs).map (fun p => ((p.1 : ℤ), p.2))
  | cs => (parseFractionCore cs).map (fun p => ((p.1 : ℤ), p.2))

/-- Tokens of the arithmetic-expression subset of Python `eval`. -/
inductive Tok where
  | num (q : ℚ)
  | plus
  | minus
  | star
  | slash
  deriving DecidableEq

/-- Tokenizer for the arithmetic subset of Python `eval` (numbers and
`+ - * /` with whitespace).  Any other character makes the whole input
fail, modelling `SyntaxError`/`NameError` (both abort the script). -/
def tokenizeAux : ℕ → List Char → Option (List Tok)
  | 0, _ => none
  | _ + 1, [] => some []
  | fuel + 1, c :: cs =>
      if c.isWhitespace then tokenizeAux fuel cs
      else if c = '+' then (tokenizeAux fuel cs).map (fun ts => Tok.plus :: ts)
      else if c = '-' then (tokenizeAux fuel cs).map (fun ts => Tok.minus :: ts)
      else if c = '*' then (tokenizeAux fuel cs).map (fun ts => Tok.star :: ts)
      else if c = '/' then (tokenizeAux fuel cs).map (fun ts => Tok.slash :: ts)
      else if c.isDigit || c = '.' then
        let ds := (c :: cs).takeWhile (fun d => d.isDigit || d = '.')
        match parseUnsignedFloat ds with
        | some q =>
            (tokenizeAux fuel ((c :: cs).drop ds.length)).map
              (fun ts => Tok.num q :: ts)
        | none => none
      else none

/-- Parse a factor: a number with optional unary signs. -/
def parseFactor : ℕ → List Tok → Option (ℚ × List Tok)
  | 0, _ => none
  | fuel + 1, Tok.minus :: ts =>
      (parseFactor fuel ts).map (fun p => (-p.1, p.2))
  | fuel + 1, Tok.plus :: ts => parseFactor fuel ts
  | _ + 1, Tok.num q :: ts => some (q, ts)
  | _ + 1, _ => none

/-- Parse the tail of a term: `* factor` and `/ factor` at equal
precedence, left associative; division by zero yields `none`
(`ZeroDivisionError`). -/
def parseTermAux : ℕ → ℚ → List Tok → Option (ℚ × List Tok)
  | 0, _, _ => none
  | fuel + 1, acc, Tok.star :: ts =>
      match parseFactor fuel ts with
      | some (v, r) => parseTermAux fuel (acc * v) r
      | none => none
  | fuel + 1, acc, Tok.slash :: ts =>
      match parseFactor fuel ts with
      | some (v, r) => if v = 0 then none else parseTermAux fuel (acc / v) r
      | none => none
  | _ + 1, acc, ts => some (acc, ts)

/-- Parse a term: factor followed by `*`/`/` chains. -/
def parseTerm (fuel : ℕ) (ts : List Tok) : Option (ℚ × List Tok) :=
  match parseFactor fuel ts with
  | some (v, r) => parseTermAux fuel v r
  | none => none

/-- Parse the tail of an expression: `+ term` and `- term`, left
associative. -/
def parseExprAux : ℕ → ℚ → List Tok → Option (ℚ × List Tok)
  | 0, _, _ => none
  | fuel + 1, acc, Tok.plus :: ts =>
      match parseTerm fuel ts with
      | some (v, r) => parseExprAux fuel (acc + v) r
      | none => none
  | fuel + 1, acc, Tok.minus :: ts =>
      match parseTerm fuel ts with
      | some (v, r) => parseExprAux fuel (acc - v) r
      | none => none
  | _ + 1, acc, ts => some (acc, ts)

/-- Parse an expression: term followed by `+`/`-` chains. -/
def parseExpr (fuel : ℕ) (ts : List Tok) : Option (ℚ × List Tok) :=
  match parseTerm fuel ts with
  | some (v, r) => parseExprAux fuel v r
  | none => none

/-- Model of Python `eval(s)` on the arithmetic subset the snap script's
increment field feeds it (numbers combined with `+ - * /`).  `none`
covers every exception the script maps to termination. -/
def pyEval (s : String) : Option ℚ :=
  match tokenizeAux (s.length + 1) s.toList with
  | none => none
  | some ts =>
      match parseExpr (2 * ts.length + 2) ts with
      | some (v, []) => some v
      | _ => none

/-- Python 3 `round` to the nearest integer, embedded on `ℚ`:
round half to even (banker's rounding). -/
def pyRound (q : ℚ) : ℤ :=
  if q - ⌊q⌋ < 1 / 2 then ⌊q⌋
  else if 1 / 2 < q - ⌊q⌋ then ⌊q⌋ + 1
  else if Even ⌊q⌋ then ⌊q⌋ else ⌊q⌋ + 1

/-- `round_to_increment` from `snap_to_rounding.py`:
`round(value / increment) * increment`.  `none` models the
`ZeroDivisionError` raised when the increment is zero. -/
def round_to_increment (value increment : ℚ) : Option ℚ :=
  if increment = 0 then none
  else some ((pyRound (value / increment) : ℚ) * increment)

/-- `snap_position` from `snap_to_rounding.py`, acting on the element's
position pair: the `X` branch rounds the x coordinate, the `else`
branch rounds the y coordinate; `none` models the propagated
`ZeroDivisionError`, in which case `moveObjectAbs` is never reached. -/
def snap_position (pos : ℚ × ℚ) (rounding_increment : ℚ) (axis : String) :
    Option (ℚ × ℚ) :=
  if axis = "X" then
    (round_to_increment pos.1 rounding_increment).map (fun x => (x, pos.2))
  else
    (round_to_increment pos.2 rounding_increment).map (fun y => (pos.1, y))

/-- Result of running one prompt (or prompt loop) to completion.
`exit` models `sys.exit` (and, where noted, an uncaught exception in the
snap script, since both abort the script immediately); `crash` models an
uncaught exception in the duplicate script; `ok` is a returned value. -/
inductive PromptResult (α : Type) where
  | exit
  | crash
  | ok (a : α)
  deriving DecidableEq

/-- The axis prompt of `snap_to_rounding.get_user_input`: the dialog
result is uppercased; anything outside `{X, Y}` shows a message box and
exits via the raised `ValueError`. -/
def snapAxisOutcome (s : String) : PromptResult String :=
  if pyUpper s = "X" ∨ pyUpper s = "Y" then PromptResult.ok (pyUpper s)
  else PromptResult.exit

/-- The increment prompt of `snap_to_rounding.get_user_input`: the
dialog result is passed to `eval` when it contains `/`, else to
`float`; `ValueError`, `SyntaxError` and `ZeroDivisionError` are caught
and exit the script (other uncaught exceptions also terminate it, so
they are likewise `exit` here).  No range check is performed. -/
def snapIncrementOutcome (s : String) : PromptResult ℚ :=
  match (if pyContains s '/' then pyEval s else parseFloat s) with
  | some q => PromptResult.ok q
  | none => PromptResult.exit

/-- `snap_to_rounding.get_user_input`: the axis prompt runs first, then
the increment prompt; returns the pair `(rounding_increment, axis)`. -/
def get_user_input (axisIn incIn : String) : PromptResult (ℚ × String) :=
  match snapAxisOutcome axisIn with
  | PromptResult.ok axis =>
      match snapIncrementOutcome incIn with
      | PromptResult.ok inc => PromptResult.ok (inc, axis)
      | _ => PromptResult.exit
  | _ => PromptResult.exit

/-- One iteration of a duplicate-script prompt loop: exit on empty
input, accept a value, reject and re-prompt, or crash. -/
inductive Step (α : Type) where
  | exit
  | crash
  | invalid
  | accept (a : α)
  deriving DecidableEq

/-- `prompt_for_element_name` from the duplicate script: empty input
exits, any other input is returned unchanged. -/
def prompt_for_element_name (nameIn : String) : PromptResult String :=
  if nameIn = "" then PromptResult.exit else PromptResult.ok nameIn

/-- One iteration of `prompt_for_axis`: empty input exits; an input
whose `strip().upper()` is `X` or `Y` is returned AS ENTERED; anything
else shows a message box and loops. -/
def axisStep (s : String) : Step String :=
  if s = "" then Step.exit
  else if pyUpper (pyStrip s) = "X" ∨ pyUpper (pyStrip s) = "Y" then
    Step.accept s
  else Step.invalid

/-- `prompt_for_axis` from the duplicate script, consuming successive
dialog results; `none` means the supplied list of dialog results was
exhausted before the loop finished. -/
def prompt_for_axis : List String → Option (PromptResult String)
  | [] => none
  | s :: rest =>
      match axisStep s with
      | Step.exit => some PromptResult.exit
      | Step.crash => some PromptResult.crash
      | Step.accept a => some (PromptResult.ok a)
      | Step.invalid => prompt_for_axis rest

/-- One iteration of `prompt_for_spacing`: empty input exits; input with
`/` goes through `fractions.Fraction` (malformed input raises the
caught `ValueError` and loops; a zero denominator raises the uncaught
`ZeroDivisionError` and crashes), other input through `float`
(`ValueError` loops); a parsed value is accepted when `>= 0` and
rejected with a message box otherwise. -/
def spacingStep (s : String) : Step ℚ :=
  if s = "" then Step.exit
  else if pyContains s '/' then
    match parseFraction s with
    | none => Step.invalid
    | some (n, d) =>
        if d = 0 then Step.crash
        else if 0 ≤ (n : ℚ) / (d : ℚ) then Step.accept ((n : ℚ) / (d : ℚ))
        else Step.invalid
  else
    match parseFloat s with
    | none => Step.invalid
    | some q => if 0 ≤ q then Step.accept q else Step.invalid

/-- `prompt_for_spacing` from the duplicate script. -/
def prompt_for_spacing : List String → Option (PromptResult ℚ)
  | [] => none
  | s :: rest =>
      match spacingStep s with
      | Step.exit => some PromptResult.exit
      | Step.crash => some PromptResult.crash
      | Step.accept q => some (PromptResult.ok q)
      | Step.invalid => prompt_for_spacing rest

/-- One iteration of `prompt_for_duplicate_count`: empty input exits;
`int` parse failure loops (`ValueError`); a parsed count is accepted
when `> 0` and rejected with a message box otherwise. -/
def countStep (s : String) : Step ℤ :=
  if s = "" then Step.exit
  else
    match parseInt s with
    | none => Step.invalid
    | some n => if 0 < n then Step.accept n else Step.invalid

/-- `prompt_for_duplicate_count` from the duplicate script. -/
def prompt_for_duplicate_count : List String → Option (PromptResult ℤ)
  | [] => none
  | s :: rest =>
      match countStep s with
      | Step.exit => some PromptResult.exit
      | Step.crash => some PromptResult.crash
      | Step.accept n => some (PromptResult.ok n)
      | Step.invalid => prompt_for_duplicate_count rest

/-- The observable result of one run of `snap_to_rounding.main`:
whether the "No elements selected." message box was shown, and the
`moveObjectAbs` calls issued (element name with the new absolute
position), in order. -/
structure SnapRun where
  errorShown : Bool
  moves : List (String × ℚ × ℚ)
  deriving DecidableEq

/-- The `for element in selection` loop of `snap_to_rounding.main`:
each element is snapped in turn; a `ZeroDivisionError` inside
`snap_position` aborts the loop, leaving earlier moves applied and
later elements untouched. -/
def snapLoop (inc : ℚ) (axis : String) :
    List (String × ℚ × ℚ) → List (String × ℚ × ℚ)
  | [] => []
  | (name, x, y) :: rest =>
      match snap_position (x, y) inc axis with
      | none => []
      | some (x2, y2) => (name, x2, y2) :: snapLoop inc axis rest

/-- `snap_to_rounding.main`: with an empty selection it shows a message
box and returns having moved nothing; otherwise it runs the prompts
and snaps every selected element.  The selection is the list of
element names with their current positions. -/
def snapMain (selection : List (String × ℚ × ℚ)) (axisIn incIn : String) :
    SnapRun :=
  if selection.length = 0 then ⟨true, []⟩
  else
    match get_user_input axisIn incIn with
    | PromptResult.ok (inc, axis) => ⟨false, snapLoop inc axis selection⟩
    | _ => ⟨false, []⟩

/-- The observable result of one run of the duplicate script's `main`:
whether the "Please select exactly one element." message box was shown,
and the duplicates placed on the document (the script body after the
prompts only prints the names, so no call ever places one). -/
structure DupRun where
  errorShown : Bool
  duplicatesPlaced : List (String × ℚ)
  deriving DecidableEq

/-- The duplicate script's `main`: with a selection count other than
exactly one it shows a message box and returns; otherwise it runs the
four prompts in order (any exit or crash propagates) and then only
prints the original and confirmed names — no duplicate is created.
`none` means a prompt loop exhausted its list of dialog results. -/
def duplicateMain (selCount : ℕ) (nameIn : String)
    (axisIns spacingIns countIns : List String) : Option DupRun :=
  if selCount ≠ 1 then some ⟨true, []⟩
  else
    match prompt_for_element_name nameIn with
    | PromptResult.ok _ =>
        match prompt_for_axis axisIns with
        | none => none
        | some (PromptResult.ok _) =>
            match prompt_for_spacing spacingIns with
            | none => none
            | some (PromptResult.ok _) =>
                match prompt_for_duplicate_count countIns with
                | none => none
                | some (PromptResult.ok _) => some ⟨false, []⟩
                | some _ => some ⟨false, []⟩
            | some _ => some ⟨false, []⟩
        | some _ => some ⟨false, []⟩
    | _ => some ⟨false, []⟩

/-! ### Lemmas about the rounding core -/

/-- `pyRound q` is at distance at most `min (q - ⌊q⌋) (1 - (q - ⌊q⌋))`
from `q`, stated as the two bounds. -/
lemma pyRound_dist (q : ℚ) :
    |(pyRound q : ℚ) - q| ≤ q - ⌊q⌋ ∧ |(pyRound q : ℚ) - q| ≤ 1 - (q - ⌊q⌋) := by
  have h0 : (⌊q⌋ : ℚ) ≤ q := Int.floor_le q
  have h1 : q < ⌊q⌋ + 1 := Int.lt_floor_add_one q
  unfold pyRound
  split_ifs with hlt hgt hev
  · rw [abs_sub_comm, abs_of_nonneg (by linarith)]
    exact ⟨le_refl _, by linarith⟩
  · push_neg at hlt
    have : |((⌊q⌋ + 1 : ℤ) : ℚ) - q| = 1 - (q - ⌊q⌋) := by
      push_cast
      rw [abs_of_nonneg (by linarith)]
      ring
    rw [this]
    exact ⟨by linarith, le_refl _⟩
  · push_neg at hlt hgt
    have heq : q - ⌊q⌋ = 1 / 2 := le_antisymm hgt hlt
    rw [abs_sub_comm, abs_of_nonneg (by linarith)]
    exact ⟨le_refl _, by linarith⟩
  · push_neg at hlt hgt
    have heq : q - ⌊q⌋ = 1 / 2 := le_antisymm hgt hlt
    have : |((⌊q⌋ + 1 : ℤ) : ℚ) - q| = 1 - (q - ⌊q⌋) := by
      push_cast
      rw [abs_of_nonneg (by linarith)]
      ring
    rw [this]
    exact ⟨by linarith, le_refl _⟩

/-- `pyRound q` is an integer nearest to `q`. -/
lemma pyRound_nearest (q : ℚ) (m : ℤ) :
    |(pyRound q : ℚ) - q| ≤ |(m : ℚ) - q| := by
  have h0 : (⌊q⌋ : ℚ) ≤ q := Int.floor_le q
  have h1 : q < ⌊q⌋ + 1 := Int.lt_floor_add_one q
  obtain ⟨hd1, hd2⟩ := pyRound_dist q
  rcases le_or_lt m ⌊q⌋ with hm | hm
  · have hmq : (m : ℚ) ≤ ⌊q⌋ := by exact_mod_cast hm
    have : |(m : ℚ) - q| = q - m := by
      rw [abs_sub_comm, abs_of_nonneg (by linarith)]
    rw [this]
    linarith
  · have hm1 : ⌊q⌋ + 1 ≤ m := hm
    have hmq : (⌊q⌋ : ℚ) + 1 ≤ m := by exact_mod_cast hm1
    have : |(m : ℚ) - q| = m - q := abs_of_nonneg (by linarith)
    rw [this]
    linarith

/-- `pyRound` is the identity on integers. -/
lemma pyRound_intCast (n : ℤ) : pyRound (n : ℚ) = n := by
  unfold pyRound
  rw [Int.floor_intCast, sub_self]
  norm_num

/-- At an exact half-way tie, `pyRound` produces an even integer. -/
lemma pyRound_tie_even (q : ℚ) (h : q - ⌊q⌋ = 1 / 2) : Even (pyRound q) := by
  unfold pyRound
  rw [h, if_neg (by norm_num), if_neg (by norm_num)]
  split_ifs with he
  · exact he
  · exact Int.even_add_one.mpr he

/-- Concrete evaluation of `pyRound` at the tie `3 / 2`. -/
lemma pyRound_three_halves : pyRound ((3 : ℚ) / 2) = 2 := by
  have hf : ⌊(3 : ℚ) / 2⌋ = 1 := by norm_num [Int.floor_eq_iff]
  unfold pyRound
  rw [hf]
  norm_num

/-! ### Lemmas about the prompt loops -/

/-- An accepted axis iteration passed the `strip().upper()` check. -/
lemma axisStep_accept {s a : String} (h : axisStep s = Step.accept a) :
    pyUpper (pyStrip a) = "X" ∨ pyUpper (pyStrip a) = "Y" := by
  unfold axisStep at h
  by_cases h1 : s = ""
  · rw [if_pos h1] at h
    exact absurd h (by simp)
  · rw [if_neg h1] at h
    by_cases h2 : pyUpper (pyStrip s) = "X" ∨ pyUpper (pyStrip s) = "Y"
    · rw [if_pos h2] at h
      injection h with h3
      rw [← h3]
      exact h2
    · rw [if_neg h2] at h
      exact absurd h (by simp)

/-- An accepted spacing iteration delivers a nonnegative value. -/
lemma spacingStep_accept {s : String} {q : ℚ}
    (h : spacingStep s = Step.accept q) : 0 ≤ q := by
  unfold spacingStep at h
  by_cases h1 : s = ""
  · rw [if_pos h1] at h
    exact absurd h (by simp)
  · rw [if_neg h1] at h
    by_cases h2 : pyContains s '/' = true
    · rw [if_pos h2] at h
      cases hp : parseFraction s with
      | none => rw [hp] at h; exact absurd h (by simp)
      | some nd =>
          obtain ⟨n, d⟩ := nd
          rw [hp] at h
          dsimp only at h
          by_cases hd : d = 0
          · rw [if_pos hd] at h
            exact absurd h (by simp)
          · rw [if_neg hd] at h
            by_cases hge : 0 ≤ (n : ℚ) / (d : ℚ)
            · rw [if_pos hge] at h
              injection h with h3
              rw [← h3]
              exact hge
            · rw [if_neg hge] at h
              exact absurd h (by simp)
    · rw [if_neg h2] at h
      cases hp : parseFloat s with
      | none => rw [hp] at h; exact absurd h (by simp)
      | some r =>
          rw [hp] at h
          dsimp only at h
          by_cases hge : 0 ≤ r
          · rw [if_pos hge] at h
            injection h with h3
            rw [← h3]
            exact hge
          · rw [if_neg hge] at h
            exact absurd h (by simp)

/-- An accepted count iteration delivers a positive value. -/
lemma countStep_accept {s : String} {n : ℤ}
    (h : countStep s = Step.accept n) : 0 < n := by
  unfold countStep at h
  by_cases h1 : s = ""
  · rw [if_pos h1] at h
    exact absurd h (by simp)
  · rw [if_neg h1] at h
    cases hp : parseInt s with
    | none => rw [hp] at h; exact absurd h (by simp)
    | some m =>
        rw [hp] at h
        dsimp only at h
        by_cases hpos : 0 < m
        · rw [if_pos hpos] at h
          injection h with h3
          rw [← h3]
          exact hpos
        · rw [if_neg hpos] at h
          exact absurd h (by simp)

/-- The axis retry loop only returns inputs that passed the
`strip().upper()` membership check. -/
lemma prompt_for_axis_ok : ∀ {ins : List String} {a : String},
    prompt_for_axis ins = some (PromptResult.ok a) →
      pyUpper (pyStrip a) = "X" ∨ pyUpper (pyStrip a) = "Y" := by
  intro ins
  induction ins with
  | nil => intro a h; simp [prompt_for_axis] at h
  | cons s rest ih =>
      intro a h
      unfold prompt_for_axis at h
      cases hs : axisStep s with
      | exit => rw [hs] at h; simp at h
      | crash => rw [hs] at h; simp at h
      | invalid => rw [hs] at h; exact ih h
      | accept b =>
          rw [hs] at h
          simp at h
          rw [← h]
          exact axisStep_accept hs

/-- The spacing retry loop only returns nonnegative values. -/
lemma prompt_for_spacing_ok : ∀ {ins : List String} {q : ℚ},
    prompt_for_spacing ins = some (PromptResult.ok q) → 0 ≤ q := by
  intro ins
  induction ins with
  | nil => intro q h; simp [prompt_for_spacing] at h
  | cons s rest ih =>
      intro q h
      unfold prompt_for_spacing at h
      cases hs : spacingStep s with
      | exit => rw [hs] at h; simp at h
      | crash => rw [hs] at h; simp at h
      | invalid => rw [hs] at h; exact ih h
      | accept b =>
          rw [hs] at h
          simp at h
          rw [← h]
          exact spacingStep_accept hs

/-- The count retry loop only returns positive values. -/
lemma prompt_for_duplicate_count_ok : ∀ {ins : List String} {n : ℤ},
    prompt_for_duplicate_count ins = some (PromptResult.ok n) → 0 < n := by
  intro ins
  induction ins with
  | nil => intro n h; simp [prompt_for_duplicate_count] at h
  | cons s rest ih =>
      intro n h
      unfold prompt_for_duplicate_count at h
      cases hs : countStep s with
      | exit => rw [hs] at h; simp at h
      | crash => rw [hs] at h; simp at h
      | invalid => rw [hs] at h; exact ih h
      | accept b =>
          rw [hs] at h
          simp at h
          rw [← h]
          exact countStep_accept hs

/-! ### Claim theorems -/

/-- C1, counterexample: the snap script's increment dialog accepts the
input `"0"` with value `0`, yet `round_to_increment(5, 0)` takes the
`ZeroDivisionError` branch instead of returning a nearest multiple. -/
theorem snap_round_zero_increment_cx :
    snapIncrementOutcome "0" = PromptResult.ok 0 ∧
      round_to_increment 5 0 = none := by
  exact ⟨by decide, rfl⟩

/-- C1 (amended to nonzero increments): for every value `v` and nonzero
increment `i`, `round_to_increment v i` returns a multiple of `i`
nearest to `v`, and an exact half-way tie is resolved to an even
quotient (round half to even). -/
theorem round_to_increment_nearest (v i : ℚ) (hi : i ≠ 0) :
    ∃ n : ℤ, round_to_increment v i = some ((n : ℚ) * i) ∧
      (∀ m : ℤ, |(n : ℚ) * i - v| ≤ |(m : ℚ) * i - v|) ∧
      (v / i - ⌊v / i⌋ = 1 / 2 → Even n) := by
  refine ⟨pyRound (v / i), ?_, ?_, fun h => pyRound_tie_even _ h⟩
  · rw [round_to_increment, if_neg hi]
  · intro m
    have hv : v / i * i = v := div_mul_cancel₀ v hi
    calc |(pyRound (v / i) : ℚ) * i - v|
        = |((pyRound (v / i) : ℚ) - v / i) * i| := by rw [sub_mul, hv]
      _ = |(pyRound (v / i) : ℚ) - v / i| * |i| := abs_mul _ _
      _ ≤ |(m : ℚ) - v / i| * |i| :=
          mul_le_mul_of_nonneg_right (pyRound_nearest (v / i) m) (abs_nonneg i)
      _ = |((m : ℚ) - v / i) * i| := (abs_mul _ _).symm
      _ = |(m : ℚ) * i - v| := by rw [sub_mul, hv]

/-- Witness for C1's theorem at `v = 3`, `i = 2`. -/
theorem round_to_increment_nearest_witness :
    (2 : ℚ) ≠ 0 ∧
      ∃ n : ℤ, round_to_increment 3 2 = some ((n : ℚ) * 2) ∧
        (∀ m : ℤ, |(n : ℚ) * 2 - 3| ≤ |(m : ℚ) * 2 - 3|) ∧
        ((3 : ℚ) / 2 - ⌊(3 : ℚ) / 2⌋ = 1 / 2 → Even n) :=
  ⟨by norm_num, round_to_increment_nearest 3 2 (by norm_num)⟩

/-- C4, counterexample: the increment `0` satisfies the claimed
precondition `0 ≤ i`, yet the division in `round_to_increment` takes
the error branch. -/
theorem round_to_increment_zero_error_cx :
    (0 : ℚ) ≤ 0 ∧ round_to_increment 1 0 = none :=
  ⟨le_refl 0, rfl⟩

/-- C4 (amended to strictly positive increments): for every value and
every increment `i > 0`, `round_to_increment` evaluates without
error. -/
theorem round_to_increment_pos_total (v i : ℚ) (h : 0 < i) :
    (round_to_increment v i).isSome := by
  rw [round_to_increment, if_neg (ne_of_gt h)]
  rfl

/-- Witness for C4's amended theorem at `v = 5`, `i = 1`. -/
theorem round_to_increment_pos_total_witness :
    (0 : ℚ) < 1 ∧ (round_to_increment 5 1).isSome :=
  ⟨by norm_num, round_to_increment_pos_total 5 1 (by norm_num)⟩

/-- C10: rounding to a nonzero increment is idempotent over exact
rational arithmetic: re-rounding the result returns it unchanged. -/
theorem round_to_increment_idempotent (v i : ℚ) (hi : i ≠ 0) :
    (round_to_increment v i).bind (fun w => round_to_increment w i) =
      round_to_increment v i := by
  rw [round_to_increment, if_neg hi, Option.some_bind, round_to_increment,
    if_neg hi]
  congr 2
  rw [mul_div_cancel_right₀ _ hi, pyRound_intCast]

/-- Witness for C10's theorem at `v = 3`, `i = 2`. -/
theorem round_to_increment_idempotent_witness :
    (2 : ℚ) ≠ 0 ∧
      (round_to_increment 3 2).bind (fun w => round_to_increment w 2) =
        round_to_increment 3 2 :=
  ⟨by norm_num, round_to_increment_idempotent 3 2 (by norm_num)⟩

/-- C9: `snap_position` only changes the coordinate of the chosen axis:
whenever it completes with axis `X` the y coordinate is preserved, and
with axis `Y` the x coordinate is preserved. -/
theorem snap_position_frame (p : ℚ × ℚ) (inc : ℚ) (axis : String)
    (q : ℚ × ℚ) (h : snap_position p inc axis = some q) :
    (axis = "X" → q.2 = p.2) ∧ (axis = "Y" → q.1 = p.1) := by
  unfold snap_position at h
  split_ifs at h with hx
  · obtain ⟨x, _, hq⟩ := Option.map_eq_some'.mp h
    constructor
    · intro _
      rw [← hq]
    · intro hy
      rw [hy] at hx
      exact absurd hx (by decide)
  · obtain ⟨y, _, hq⟩ := Option.map_eq_some'.mp h
    constructor
    · intro hx2
      exact absurd hx2 hx
    · intro _
      rw [← hq]

/-- Witness for C9's theorem: snapping `(3, 2)` to increment `2` along
`X` moves it to `(4, 2)`, preserving the y coordinate. -/
theorem snap_position_frame_witness :
    (("X" : String) = "X" → (((4 : ℚ), (2 : ℚ)) : ℚ × ℚ).2 = (((3 : ℚ), (2 : ℚ)) : ℚ × ℚ).2) ∧
      (("X" : String) = "Y" → (((4 : ℚ), (2 : ℚ)) : ℚ × ℚ).1 = (((3 : ℚ), (2 : ℚ)) : ℚ × ℚ).1) :=
  snap_position_frame (3, 2) 2 "X" (4, 2) (by
    show (round_to_increment 3 2).map (fun x => (x, (2 : ℚ))) = some (4, 2)
    unfold round_to_increment
    rw [if_neg (by norm_num : (2 : ℚ) ≠ 0), pyRound_three_halves]
    norm_num)

/-- C2, counterexample: the snap script's increment prompt accepts the
input `"-1"` and returns the negative increment `-1`, outside the
claimed allowed range `increment ≥ 0`. -/
theorem snap_increment_negative_cx :
    snapIncrementOutcome "-1" = PromptResult.ok (-1) ∧ (-1 : ℚ) < 0 := by
  constructor
  · decide
  · norm_num

/-- C2 (amended to the duplicate script's validators): the spacing
prompt never returns a negative spacing and the count prompt never
returns a non-positive count; the snap script's increment prompt only
rejects malformed input and performs no range check. -/
theorem duplicate_validators_in_range :
    (∀ ins : List String, ∀ q : ℚ,
      prompt_for_spacing ins = some (PromptResult.ok q) → 0 ≤ q) ∧
    (∀ ins : List String, ∀ n : ℤ,
      prompt_for_duplicate_count ins = some (PromptResult.ok n) → 0 < n) :=
  ⟨fun _ _ h => prompt_for_spacing_ok h,
   fun _ _ h => prompt_for_duplicate_count_ok h⟩

/-- Witness for C2's amended theorem: the count prompt retries past the
rejected `"0"` and returns `7 > 0`. -/
theorem duplicate_validators_in_range_witness :
    prompt_for_duplicate_count ["0", "7"] = some (PromptResult.ok 7) ∧
      (0 : ℤ) < 7 :=
  ⟨by decide, duplicate_validators_in_range.2 ["0", "7"] 7 (by decide)⟩

/-- C3 (code bug): with exactly one element selected and valid dialog
inputs (axis `X`, spacing `5`, count `3`), the duplicate script's
`main` completes without placing a single duplicate — the body after
the prompts only prints the element names. -/
theorem duplicate_main_places_no_duplicates :
    duplicateMain 1 "obj" ["X"] ["5"] ["3"] =
      some { errorShown := false, duplicatesPlaced := [] } := by
  decide

/-- C5, counterexample: the duplicate script's axis prompt accepts the
input `"x"` (its `strip().upper()` is `X`) but returns it as entered,
so the returned axis value is not an element of `{X, Y}`. -/
theorem axis_prompt_raw_value_cx :
    prompt_for_axis ["x"] = some (PromptResult.ok "x") ∧
      ("x" : String) ≠ "X" ∧ ("x" : String) ≠ "Y" := by
  decide

/-- C5 (amended): the snap script's axis prompt returns only the
literal `"X"` or `"Y"`; the duplicate script's axis prompt returns a
value whose `strip().upper()` is `"X"` or `"Y"` (but possibly not the
literal itself). -/
theorem axis_values_valid :
    (∀ s a : String,
      snapAxisOutcome s = PromptResult.ok a → a = "X" ∨ a = "Y") ∧
    (∀ ins : List String, ∀ a : String,
      prompt_for_axis ins = some (PromptResult.ok a) →
        pyUpper (pyStrip a) = "X" ∨ pyUpper (pyStrip a) = "Y") := by
  constructor
  · intro s a h
    unfold snapAxisOutcome at h
    by_cases h1 : pyUpper s = "X" ∨ pyUpper s = "Y"
    · rw [if_pos h1] at h
      injection h with h2
      rw [← h2]
      exact h1
    · rw [if_neg h1] at h
      exact absurd h (by simp)
  · intro ins a h
    exact prompt_for_axis_ok h

/-- Witness for C5's amended theorem: the snap axis prompt uppercases
`"y"` and returns `"Y"`. -/
theorem axis_values_valid_witness :
    ("Y" : String) = "X" ∨ ("Y" : String) = "Y" :=
  axis_values_valid.1 "y" "Y" (by decide)

/-- C6: an invalid selection count (zero selected in the snap script,
any count other than one in the duplicate script) makes `main` show a
message box and return without moving or duplicating anything. -/
theorem invalid_selection_noop (selection : List (String × ℚ × ℚ))
    (axisIn incIn : String) (selCount : ℕ) (nameIn : String)
    (axisIns spacingIns countIns : List String)
    (h1 : selection.length = 0) (h2 : selCount ≠ 1) :
    snapMain selection axisIn incIn = { errorShown := true, moves := [] } ∧
      duplicateMain selCount nameIn axisIns spacingIns countIns =
        some { errorShown := true, duplicatesPlaced := [] } := by
  constructor
  · unfold snapMain
    rw [if_pos h1]
  · unfold duplicateMain
    rw [if_pos h2]

/-- Witness for C6's theorem: empty snap selection and a duplicate
selection count of `0`. -/
theorem invalid_selection_noop_witness :
    snapMain [] "X" "1" = { errorShown := true, moves := [] } ∧
      duplicateMain 0 "a" [] [] [] =
        some { errorShown := true, duplicatesPlaced := [] } :=
  invalid_selection_noop [] "X" "1" 0 "a" [] [] [] rfl (by decide)

/-- C7: every dialog prompt in either script exits immediately on an
empty dialog result (never retrying), and the three retry loops of the
duplicate script only ever return values passing their validation
(axis membership after `strip().upper()`, spacing `≥ 0`, count `> 0`);
the snap script's prompts terminate on any invalid input. -/
theorem prompts_error_handling :
    snapAxisOutcome "" = PromptResult.exit ∧
    snapIncrementOutcome "" = PromptResult.exit ∧
    prompt_for_element_name "" = PromptResult.exit ∧
    (∀ rest : List String,
      prompt_for_axis ("" :: rest) = some PromptResult.exit) ∧
    (∀ rest : List String,
      prompt_for_spacing ("" :: rest) = some PromptResult.exit) ∧
    (∀ rest : List String,
      prompt_for_duplicate_count ("" :: rest) = some PromptResult.exit) ∧
    (∀ ins : List String, ∀ a : String,
      prompt_for_axis ins = some (PromptResult.ok a) →
        pyUpper (pyStrip a) = "X" ∨ pyUpper (pyStrip a) = "Y") ∧
    (∀ ins : List String, ∀ q : ℚ,
      prompt_for_spacing ins = some (PromptResult.ok q) → 0 ≤ q) ∧
    (∀ ins : List String, ∀ n : ℤ,
      prompt_for_duplicate_count ins = some (PromptResult.ok n) → 0 < n) := by
  refine ⟨by decide, by decide, rfl, fun rest => rfl, fun rest => rfl,
    fun rest => rfl, fun _ _ h => prompt_for_axis_ok h,
    fun _ _ h => prompt_for_spacing_ok h,
    fun _ _ h => prompt_for_duplicate_count_ok h⟩

/-- Witness for C7's theorem: the spacing loop rejects `"-1"`, retries,
and returns the nonnegative `2`. -/
theorem prompts_error_handling_witness :
    prompt_for_spacing ["-1", "2"] = some (PromptResult.ok 2) ∧
      (0 : ℚ) ≤ 2 :=
  ⟨by decide,
   prompts_error_handling.2.2.2.2.2.2.2.1 ["-1", "2"] 2 (by decide)⟩

/-- C8, counterexample: the snap script's increment prompt feeds
`/`-containing input to `eval`, so the input `"2+1/2"`, which is not a
well-formed fraction, is accepted with value `5/2` instead of being
rejected. -/
theorem snap_eval_nonfraction_cx :
    snapIncrementOutcome "2+1/2" = PromptResult.ok (5 / 2) ∧
      parseFraction "2+1/2" = none := by
  constructor
  · have h1 : snapIncrementOutcome "2+1/2" =
        PromptResult.ok (((2 : ℕ) : ℚ) + ((1 : ℕ) : ℚ) / ((2 : ℕ) : ℚ)) := by
      rfl
    rw [h1]
    norm_num
  · decide

/-- C8 (amended to the duplicate script's spacing prompt): a
`/`-containing input is accepted only as the exact rational value of
the fraction it denotes (with nonzero denominator), and input that is
not a well-formed fraction is rejected for retry. -/
theorem spacing_fraction_exact (s : String)
    (hs : pyContains s '/' = true) :
    (∀ q : ℚ, spacingStep s = Step.accept q →
      ∃ n : ℤ, ∃ d : ℕ, parseFraction s = some (n, d) ∧ d ≠ 0 ∧
        q = (n : ℚ) / (d : ℚ)) ∧
    (parseFraction s = none → spacingStep s = Step.invalid) := by
  have hne : s ≠ "" := by
    intro h0
    rw [h0] at hs
    exact absurd hs (by decide)
  constructor
  · intro q hq
    unfold spacingStep at hq
    rw [if_neg hne, if_pos hs] at hq
    cases hp : parseFraction s with
    | none => rw [hp] at hq; exact absurd hq (by simp)
    | some nd =>
        obtain ⟨n, d⟩ := nd
        rw [hp] at hq
        dsimp only at hq
        by_cases hd : d = 0
        · rw [if_pos hd] at hq
          exact absurd hq (by simp)
        · rw [if_neg hd] at hq
          by_cases hge : 0 ≤ (n : ℚ) / (d : ℚ)
          · rw [if_pos hge] at hq
            injection hq with h3
            exact ⟨n, d, rfl, hd, h3.symm⟩
          · rw [if_neg hge] at hq
            exact absurd hq (by simp)
  · intro hp
    unfold spacingStep
    rw [if_neg hne, if_pos hs, hp]

/-- Witness for C8's amended theorem at the input `"4/32"`. -/
theorem spacing_fraction_exact_witness :
    pyContains "4/32" '/' = true ∧
      ((∀ q : ℚ, spacingStep "4/32" = Step.accept q →
        ∃ n : ℤ, ∃ d : ℕ, parseFraction "4/32" = some (n, d) ∧ d ≠ 0 ∧
          q = (n : ℚ) / (d : ℚ)) ∧
       (parseFraction "4/32" = none → spacingStep "4/32" = Step.invalid)) :=
  ⟨by decide, spacing_fraction_exact "4/32" (by decide)⟩

end ScribusScripts
